import Mathlib

/-!
Shallow embedding of the task normalization / filtering logic of
`src/components/tasks/TaskFilter.jsx` (a React task-filter view), together
with proofs of the specification's claims about it.

Raw task records coming out of browser storage are heterogeneous: every
field may be absent.  We model a string-valued field as `Option String`
(with JavaScript falsiness: `none` and `some ""` are falsy) and the
numeric `progress` field as `Option Int` (falsy: `none` and `some 0`).
The JavaScript `a || b` fallback chain on such fields is modelled by
`jsOr` / `strOr` / `intOr` below.

The time-dependent defaults (`Date.now().toString()` for a generated id,
`new Date().toISOString()` for a creation timestamp) are injected as
explicit parameters `genId` / `nowIso`, as the spec requires for
testability.
-/

namespace TaskFilter

/-- JavaScript truthiness of an optional string field: keep the value only
when it is present and non-empty. -/
def truthyOpt : Option String → Option String
  | none => none
  | some s => if s = "" then none else some s

/-- `a || b` on two optional string fields (the result of the whole chain
is `null` when both are falsy, as in `task.dueDate || task.deadline || null`). -/
def jsOr (a b : Option String) : Option String :=
  match truthyOpt a with
  | some s => some s
  | none => truthyOpt b

/-- `v || d` where the fallback `d` is a plain string. -/
def strOr (v : Option String) (d : String) : String :=
  match truthyOpt v with
  | some s => s
  | none => d

/-- `v || d` on the numeric `progress` field; `0` is falsy in JavaScript. -/
def intOr (v : Option Int) (d : Int) : Int :=
  match v with
  | none => d
  | some n => if n = 0 then d else n

/-- A raw task record as read from storage: every field may be absent.
`mongoId` models the source's `_id` field. -/
structure RawTask where
  id : Option String := none
  mongoId : Option String := none
  title : Option String := none
  description : Option String := none
  status : Option String := none
  priority : Option String := none
  dueDate : Option String := none
  deadline : Option String := none
  createdAt : Option String := none
  progress : Option Int := none
  assignedTo : Option String := none
deriving DecidableEq, Repr

/-- The canonical task record produced by normalization. -/
structure NormalizedTask where
  id : String
  title : String
  description : String
  status : String
  priority : String
  dueDate : Option String
  createdAt : String
  progress : Int
  assignedTo : String
deriving DecidableEq, Repr

/-- The status-determination block of `normalizeTask`
(`TaskFilter.jsx` lines 49-59): an explicit `'complete'` / `'incomplete'`
status field wins; otherwise a numeric progress field decides via the
`progress > 80` threshold; otherwise the default `'incomplete'` stands. -/
def normalizeStatus (status : Option String) (progress : Option Int) : String :=
  if status = some "complete" then "complete"
  else if status = some "incomplete" then "incomplete"
  else
    match progress with
    | some p => if p > 80 then "complete" else "incomplete"
    | none => "incomplete"

/-- `normalizeTask` (`TaskFilter.jsx` lines 48-75), with the generated id
and the current ISO timestamp injected as `genId` / `nowIso`. -/
def normalizeTask (genId nowIso : String) (task : RawTask) : NormalizedTask :=
  let status := normalizeStatus task.status task.progress
  { id := strOr (jsOr task.id task.mongoId) genId
    title := strOr task.title "Untitled Task"
    description := strOr task.description ""
    status := status
    priority := strOr task.priority "medium"
    dueDate := jsOr task.dueDate task.deadline
    createdAt := strOr task.createdAt nowIso
    progress := intOr task.progress (if status = "complete" then 100 else 0)
    assignedTo := strOr task.assignedTo "Unassigned" }

/-- Re-reading a normalized task as a raw record (the canonical record has
no `_id` and no `deadline` field, so those are absent). -/
def NormalizedTask.toRaw (t : NormalizedTask) : RawTask :=
  { id := some t.id
    mongoId := none
    title := some t.title
    description := some t.description
    status := some t.status
    priority := some t.priority
    dueDate := t.dueDate
    deadline := none
    createdAt := some t.createdAt
    progress := some t.progress
    assignedTo := some t.assignedTo }

theorem jsOr_none_right (v : Option String) : jsOr v none = truthyOpt v := by
  cases v with
  | none => rfl
  | some s => by_cases h : s = "" <;> simp [jsOr, truthyOpt, h]

theorem strOr_truthyOpt (v : Option String) (d : String) :
    strOr (truthyOpt v) d = strOr v d := by
  cases v with
  | none => rfl
  | some s =>
    by_cases h : s = "" <;> simp [strOr, truthyOpt, h]

theorem strOr_idem (v : Option String) (d : String) :
    strOr (some (strOr v d)) d = strOr v d := by
  cases v with
  | none =>
    by_cases h : d = "" <;> simp [strOr, truthyOpt, h]
  | some s =>
    by_cases hs : s = "" <;> by_cases hd : d = "" <;>
      simp [strOr, truthyOpt, hs, hd]

theorem truthyOpt_jsOr (a b : Option String) :
    truthyOpt (jsOr a b) = jsOr a b := by
  cases a with
  | none =>
    cases b with
    | none => rfl
    | some s => by_cases h : s = "" <;> simp [jsOr, truthyOpt, h]
  | some s =>
    cases b with
    | none => by_cases h : s = "" <;> simp [jsOr, truthyOpt, h]
    | some t =>
      by_cases hs : s = "" <;> by_cases ht : t = "" <;>
        simp [jsOr, truthyOpt, hs, ht]

theorem intOr_idem (v : Option Int) (d : Int) :
    intOr (some (intOr v d)) d = intOr v d := by
  cases v with
  | none => by_cases h : d = 0 <;> simp [intOr, h]
  | some n =>
    by_cases hn : n = 0 <;> by_cases hd : d = 0 <;> simp [intOr, hn, hd]

theorem normalizeStatus_cases (s : Option String) (p : Option Int) :
    normalizeStatus s p = "complete" ∨ normalizeStatus s p = "incomplete" := by
  unfold normalizeStatus
  split_ifs <;> try simp
  cases p with
  | none => simp
  | some n => by_cases h : (80 : Int) < n <;> simp [h]

theorem normalizeStatus_self (s : Option String) (p q : Option Int) :
    normalizeStatus (some (normalizeStatus s p)) q = normalizeStatus s p := by
  rcases normalizeStatus_cases s p with h | h <;> rw [h] <;> rfl

/-- **C1.** For a raw record with no explicit status field and a numeric
progress field `p`, `normalizeTask` assigns status `'complete'` exactly
when `p > 80`; in particular `p = 80` yields `'incomplete'` and `p = 81`
yields `'complete'`. -/
theorem normalizeTask_progress_threshold (genId nowIso : String) (r : RawTask)
    (hs : r.status = none) (p : Int) (hp : r.progress = some p) :
    (normalizeTask genId nowIso r).status =
      if p > 80 then "complete" else "incomplete" := by
  simp [normalizeTask, normalizeStatus, hs, hp]

/-- Witness for C1 at the boundary inputs `p = 81` and `p = 80`. -/
theorem normalizeTask_progress_threshold_witness :
    (normalizeTask "1700000000000" "2024-01-01T00:00:00Z"
        { progress := some 81 }).status = "complete" ∧
    (normalizeTask "1700000000000" "2024-01-01T00:00:00Z"
        { progress := some 80 }).status = "incomplete" := by
  refine ⟨?_, ?_⟩
  · have h := normalizeTask_progress_threshold "1700000000000" "2024-01-01T00:00:00Z"
      { progress := some 81 } rfl 81 rfl
    simpa using h
  · have h := normalizeTask_progress_threshold "1700000000000" "2024-01-01T00:00:00Z"
      { progress := some 80 } rfl 80 rfl
    simpa using h

/-- **C10.** On a record with explicit status `'complete'` and supplied
progress `0`, the supplied zero is falsy, so `task.progress || 100`
synthesizes `100`: a stored zero progress does not survive normalization
on complete tasks. -/
theorem normalizeTask_complete_zero_progress (genId nowIso : String) (r : RawTask)
    (hs : r.status = some "complete") (hp : r.progress = some 0) :
    (normalizeTask genId nowIso r).progress = 100 := by
  simp [normalizeTask, normalizeStatus, intOr, hs, hp]

/-- Witness for C10 at a concrete record. -/
theorem normalizeTask_complete_zero_progress_witness :
    (normalizeTask "1700000000000" "2024-01-01T00:00:00Z"
        { status := some "complete", progress := some 0 }).progress = 100 :=
  normalizeTask_complete_zero_progress "1700000000000" "2024-01-01T00:00:00Z"
    { status := some "complete", progress := some 0 } rfl rfl

/-- Counterexample to **C9** as stated: the unrecognized priority value
`'urgent'` is not replaced by `'medium'` — the code only falls back on a
falsy priority (`task.priority || 'medium'`), it never validates the
value against the `{high, medium, low}` enum. -/
theorem normalizeTask_priority_counterexample :
    (normalizeTask "1700000000000" "2024-01-01T00:00:00Z"
        { priority := some "urgent" }).priority = "urgent" := by
  decide

/-- **C9 (amended).** `normalizeTask` assigns priority `'medium'` exactly
when the raw priority field is falsy (absent or the empty string); any
non-empty priority value — recognized or not — is preserved unchanged, so
the canonical priority is not guaranteed to lie in `{high, medium, low}`. -/
theorem normalizeTask_priority_default (genId nowIso : String) (r : RawTask) :
    ((r.priority = none ∨ r.priority = some "") →
      (normalizeTask genId nowIso r).priority = "medium") ∧
    (∀ s : String, s ≠ "" → r.priority = some s →
      (normalizeTask genId nowIso r).priority = s) := by
  constructor
  · rintro (h | h) <;> simp [normalizeTask, strOr, truthyOpt, h]
  · intro s hs h
    simp [normalizeTask, strOr, truthyOpt, h, hs]

/-- Witness for C9 (amended): an absent priority defaults to `'medium'`
and the non-empty value `'low'` is preserved. -/
theorem normalizeTask_priority_default_witness :
    (normalizeTask "1700000000000" "2024-01-01T00:00:00Z"
        { title := some "t" }).priority = "medium" ∧
    (normalizeTask "1700000000000" "2024-01-01T00:00:00Z"
        { priority := some "low" }).priority = "low" := by
  constructor
  · exact (normalizeTask_priority_default "1700000000000" "2024-01-01T00:00:00Z"
      { title := some "t" }).1 (Or.inl rfl)
  · exact (normalizeTask_priority_default "1700000000000" "2024-01-01T00:00:00Z"
      { priority := some "low" }).2 "low" (by decide) rfl

/-- Counterexample to **C2** as stated: two records with the same explicit
status field `'done'` and different numeric progress values normalize to
different statuses, so the explicit status field alone does not determine
the normalized status — an unrecognized status value loses to the
progress threshold. -/
theorem normalizeTask_status_wins_counterexample :
    (normalizeTask "1700000000000" "2024-01-01T00:00:00Z"
        { status := some "done", progress := some 90 }).status = "complete" ∧
    (normalizeTask "1700000000000" "2024-01-01T00:00:00Z"
        { status := some "done", progress := some 10 }).status = "incomplete" := by
  decide

/-- **C2 (amended).** On a record with both an explicit status field and a
numeric progress field, the explicit status wins exactly when it holds one
of the recognized values `'complete'` / `'incomplete'`; otherwise the
`progress > 80` threshold determines the normalized status. -/
theorem normalizeTask_status_wins (genId nowIso : String) (r : RawTask)
    (s : String) (hs : r.status = some s) (p : Int) (hp : r.progress = some p) :
    ((s = "complete" ∨ s = "incomplete") →
      (normalizeTask genId nowIso r).status = s) ∧
    (s ≠ "complete" → s ≠ "incomplete" →
      (normalizeTask genId nowIso r).status =
        if p > 80 then "complete" else "incomplete") := by
  constructor
  · rintro (h | h) <;> subst h <;> simp [normalizeTask, normalizeStatus, hs]
  · intro h1 h2
    simp [normalizeTask, normalizeStatus, hs, hp, h1, h2]

/-- Witness for C2 (amended): explicit status `'incomplete'` beats
progress `95`, while the unrecognized status `'done'` defers to the
threshold. -/
theorem normalizeTask_status_wins_witness :
    (normalizeTask "1700000000000" "2024-01-01T00:00:00Z"
        { status := some "incomplete", progress := some 95 }).status = "incomplete" ∧
    (normalizeTask "1700000000000" "2024-01-01T00:00:00Z"
        { status := some "done", progress := some 95 }).status = "complete" := by
  constructor
  · exact (normalizeTask_status_wins "1700000000000" "2024-01-01T00:00:00Z"
      { status := some "incomplete", progress := some 95 } "incomplete" rfl 95 rfl).1
      (Or.inr rfl)
  · have h := (normalizeTask_status_wins "1700000000000" "2024-01-01T00:00:00Z"
      { status := some "done", progress := some 95 } "done" rfl 95 rfl).2
      (by decide) (by decide)
    simpa using h

/-- **C3.** `normalizeTask` is idempotent: re-normalizing a normalized
record (read back as a raw record) reproduces it exactly, with the
generated-id and default-timestamp sources held fixed by the injected
`genId` / `nowIso` parameters. -/
theorem normalizeTask_idempotent (genId nowIso : String) (r : RawTask) :
    normalizeTask genId nowIso ((normalizeTask genId nowIso r).toRaw) =
      normalizeTask genId nowIso r := by
  simp only [normalizeTask, NormalizedTask.toRaw, NormalizedTask.mk.injEq]
  refine ⟨?_, ?_, ?_, ?_, ?_, ?_, ?_, ?_, ?_⟩
  · rw [jsOr_none_right, strOr_truthyOpt, strOr_idem]
  · rw [strOr_idem]
  · rw [strOr_idem]
  · rw [normalizeStatus_self]
  · rw [strOr_idem]
  · rw [jsOr_none_right, truthyOpt_jsOr]
  · rw [strOr_idem]
  · simp only [normalizeStatus_self]
    rw [intOr_idem]
  · rw [strOr_idem]

/-! ### Filter engine, count aggregation and date predicates -/

/-- The filter-criteria object held in component state
(`TaskFilter.jsx` lines 30-34): `{ status: 'all', search: '', priority: 'all' }`
by default. -/
structure FilterSettings where
  status : String
  search : String
  priority : String
deriving DecidableEq, Repr

/-- JavaScript's `haystack.includes(needle)`: substring containment. -/
def jsIncludes (haystack needle : String) : Bool :=
  decide (List.IsInfix needle.data haystack.data)

/-- JavaScript's `s.toLowerCase()`, modelled characterwise (structural, so
that concrete instances evaluate inside the kernel). -/
def toLowerStr (s : String) : String :=
  String.mk (s.data.map Char.toLower)

/-- JavaScript's `s.trim()`: strip leading and trailing whitespace
(structural model over the character list). -/
def trimStr (s : String) : String :=
  String.mk (((s.data.dropWhile Char.isWhitespace).reverse.dropWhile
    Char.isWhitespace).reverse)

/-- The status predicate of `applyFilters` (line 205). -/
def statusMatches (fs : FilterSettings) (t : NormalizedTask) : Bool :=
  t.status == fs.status

/-- The priority predicate of `applyFilters` (lines 210-212):
`task.priority && task.priority.toLowerCase() === filterSettings.priority.toLowerCase()`. -/
def priorityMatches (fs : FilterSettings) (t : NormalizedTask) : Bool :=
  t.priority != "" && toLowerStr t.priority == toLowerStr fs.priority

/-- The search predicate of `applyFilters` (lines 218-222): case-insensitive
substring match of the already lowercased, trimmed `searchTerm` against
title, description, and (when truthy) assignee. -/
def searchMatches (searchTerm : String) (t : NormalizedTask) : Bool :=
  jsIncludes (toLowerStr t.title) searchTerm ||
  jsIncludes (toLowerStr t.description) searchTerm ||
  (t.assignedTo != "" && jsIncludes (toLowerStr t.assignedTo) searchTerm)

/-- `applyFilters` (`TaskFilter.jsx` lines 200-226), as the pure function
computing `result`: status stage, then priority stage, then search stage,
each skipped when its criterion is the no-op value (`'all'`, `'all'`,
blank search). -/
def applyFilters (taskList : List NormalizedTask) (fs : FilterSettings) :
    List NormalizedTask :=
  let result := taskList
  let result := if fs.status ≠ "all" then result.filter (statusMatches fs) else result
  let result := if fs.priority ≠ "all" then result.filter (priorityMatches fs) else result
  let result :=
    if trimStr fs.search ≠ "" then
      result.filter (searchMatches (trimStr (toLowerStr fs.search)))
    else result
  result

/-- The `{all, complete, incomplete}` count summary. -/
structure Counts where
  all : Nat
  complete : Nat
  incomplete : Nat
deriving DecidableEq, Repr

/-- `updateCounts` (`TaskFilter.jsx` lines 182-191), as the pure function
computing the summary that is stored in state. -/
def updateCounts (taskList : List NormalizedTask) : Counts where
  all := taskList.length
  complete := (taskList.filter (fun t => t.status == "complete")).length
  incomplete := (taskList.filter (fun t => t.status == "incomplete")).length

/-- A point in time, abstracted to what the code observes of a `Date`:
its calendar day (what `toDateString` identifies) and the time of day
within it.  Instant comparison (`<` on `Date`) is lexicographic on
`(day, minuteOfDay)`. -/
structure DateTime where
  day : Int
  minuteOfDay : Int
deriving DecidableEq, Repr

/-- `new Date(a) < new Date(b)`: strict instant order. -/
def DateTime.beforeB (a b : DateTime) : Bool :=
  decide (a.day < b.day ∨ (a.day = b.day ∧ a.minuteOfDay < b.minuteOfDay))

/-- `isOverdue` (`TaskFilter.jsx` lines 297-300), with the current moment
injected as `now`: false on a missing due date, otherwise
`dueDate < now && dueDate.toDateString() !== now.toDateString()`. -/
def isOverdue (now : DateTime) (dueDate : Option DateTime) : Bool :=
  match dueDate with
  | none => false
  | some d => DateTime.beforeB d now && decide (d.day ≠ now.day)

/-- A concrete canonical record used by the spec's search examples
(title "Fix Bug", assignee "Alice"). -/
def fixBugTask : NormalizedTask :=
  { id := "1"
    title := "Fix Bug"
    description := ""
    status := "incomplete"
    priority := "medium"
    dueDate := none
    createdAt := "2024-01-01T00:00:00Z"
    progress := 0
    assignedTo := "Alice" }

theorem trimStr_empty : trimStr "" = "" := by decide

theorem statusMatches_fn (fs : FilterSettings) :
    statusMatches fs = fun t => t.status == fs.status := rfl

theorem statusMatches_congr (fs : FilterSettings) (s p : String) :
    statusMatches { status := fs.status, search := s, priority := p } =
      statusMatches fs := rfl

theorem priorityMatches_congr (fs : FilterSettings) (s t : String) :
    priorityMatches { status := t, search := s, priority := fs.priority } =
      priorityMatches fs := rfl

theorem filter_stage_sublist (l : List NormalizedTask) (c : Prop) [Decidable c]
    (f : NormalizedTask → Bool) : (if c then l.filter f else l).Sublist l := by
  split_ifs with h
  · exact List.filter_sublist _
  · exact List.Sublist.refl l

theorem normalizeTask_status_valid (genId nowIso : String) (r : RawTask) :
    (normalizeTask genId nowIso r).status = "complete" ∨
      (normalizeTask genId nowIso r).status = "incomplete" :=
  normalizeStatus_cases r.status r.progress

theorem length_filter_status (l : List NormalizedTask)
    (h : ∀ t ∈ l, t.status = "complete" ∨ t.status = "incomplete") :
    (l.filter (fun t => t.status == "complete")).length +
      (l.filter (fun t => t.status == "incomplete")).length = l.length := by
  induction l with
  | nil => rfl
  | cons a l ih =>
    have ha := h a (List.mem_cons_self a l)
    have hl : ∀ t ∈ l, t.status = "complete" ∨ t.status = "incomplete" :=
      fun t ht => h t (List.mem_cons_of_mem a ht)
    have hsum := ih hl
    rcases ha with ha | ha <;>
      simp [List.filter_cons, ha,
        show ("complete" : String) ≠ "incomplete" from by decide,
        show ("incomplete" : String) ≠ "complete" from by decide] <;>
      omega

/-- **C7.** Filtering with the default criteria
`{status: 'all', priority: 'all', search: ''}` is the identity: every
stage is skipped, so the input list comes back unchanged in order. -/
theorem applyFilters_default_identity (tasks : List NormalizedTask) :
    applyFilters tasks { status := "all", search := "", priority := "all" } = tasks := by
  simp [applyFilters, trimStr_empty]

/-- **C8.** Filtering with status `'complete'` (other criteria at their
defaults) returns exactly the records whose canonical status is
`'complete'`; and for every combination of criteria the output is a
sublist of the input — a subset preserving relative order. -/
theorem applyFilters_status_complete_spec :
    (∀ tasks : List NormalizedTask,
      applyFilters tasks { status := "complete", search := "", priority := "all" } =
        tasks.filter (fun t => t.status == "complete")) ∧
    (∀ (tasks : List NormalizedTask) (fs : FilterSettings),
      (applyFilters tasks fs).Sublist tasks) := by
  constructor
  · intro tasks
    simp [applyFilters, trimStr_empty, statusMatches_fn]
  · intro tasks fs
    simp only [applyFilters]
    exact (filter_stage_sublist _ _ _).trans
      ((filter_stage_sublist _ _ _).trans (filter_stage_sublist _ _ _))

/-- **C4.** The search stage: a search string whose trim is empty
short-circuits — the result is the same as with the empty search string,
for every status/priority criterion — and a non-blank search filters by
the case-insensitive substring predicate `searchMatches` over title,
description, and assignee. -/
theorem applyFilters_search_stage (tasks : List NormalizedTask) (fs : FilterSettings) :
    (trimStr fs.search = "" →
      applyFilters tasks fs =
        applyFilters tasks { status := fs.status, search := "", priority := fs.priority }) ∧
    (fs.status = "all" → fs.priority = "all" → trimStr fs.search ≠ "" →
      applyFilters tasks fs =
        tasks.filter (searchMatches (trimStr (toLowerStr fs.search)))) := by
  constructor
  · intro h
    simp [applyFilters, h, trimStr_empty, statusMatches_congr, priorityMatches_congr]
  · intro h1 h2 h3
    simp [applyFilters, h1, h2, h3]

/-- Witness for C4: the spec's two search examples — the lowercase term
`"fix"` matches the title `"Fix Bug"` and the uppercase term `"ALICE"`
matches the assignee `"Alice"`. -/
theorem applyFilters_search_stage_witness :
    applyFilters [fixBugTask]
        { status := "all", search := "fix", priority := "all" } = [fixBugTask] ∧
    applyFilters [fixBugTask]
        { status := "all", search := "ALICE", priority := "all" } = [fixBugTask] := by
  constructor
  · rw [(applyFilters_search_stage [fixBugTask]
      { status := "all", search := "fix", priority := "all" }).2 rfl rfl (by decide)]
    decide
  · rw [(applyFilters_search_stage [fixBugTask]
      { status := "all", search := "ALICE", priority := "all" }).2 rfl rfl (by decide)]
    decide

/-- **C6.** On a list of normalized tasks (every status is `'complete'`
or `'incomplete'`, as normalization guarantees), the count summary has
`all = length` and `complete + incomplete = all`: completion is a total
partition with no third state. -/
theorem updateCounts_partition (tasks : List NormalizedTask)
    (h : ∀ t ∈ tasks, t.status = "complete" ∨ t.status = "incomplete") :
    (updateCounts tasks).all = tasks.length ∧
    (updateCounts tasks).complete + (updateCounts tasks).incomplete =
      (updateCounts tasks).all :=
  ⟨rfl, length_filter_status tasks h⟩

/-- Witness for C6 on a concrete one-element normalized list. -/
theorem updateCounts_partition_witness :
    (updateCounts [fixBugTask]).all = [fixBugTask].length ∧
    (updateCounts [fixBugTask]).complete + (updateCounts [fixBugTask]).incomplete =
      (updateCounts [fixBugTask]).all :=
  updateCounts_partition [fixBugTask] (by decide)

/-- **C5.** `isOverdue` is true exactly when the due date is present,
strictly before the injected current moment, and on a different calendar
day; in particular (day 19723 = 2024-01-01, minutes from midnight)
08:00 is not overdue at 20:00 the same day, but is overdue at 00:01 the
next day. -/
theorem isOverdue_iff :
    (∀ (now : DateTime) (dd : Option DateTime),
        isOverdue now dd = true ↔
          ∃ d, dd = some d ∧
            (d.day < now.day ∨ (d.day = now.day ∧ d.minuteOfDay < now.minuteOfDay)) ∧
            d.day ≠ now.day) ∧
    isOverdue ⟨19723, 1200⟩ (some ⟨19723, 480⟩) = false ∧
    isOverdue ⟨19724, 1⟩ (some ⟨19723, 480⟩) = true := by
  refine ⟨?_, by decide, by decide⟩
  intro now dd
  cases dd with
  | none => simp [isOverdue]
  | some d => simp [isOverdue, DateTime.beforeB]

end TaskFilter
